import Mathlib

/-!
Shallow embedding of the `AppSession` Titanium/CommonJS module
(src/Resources/AppSession.js and the variant src/unnamed/part_001).

The module is a closure over four private variables:
  sessionTimeoutMs (initially 600000), lastAccessTime (initially null),
  userIdKey ('SESSION_USER_ID'), heartbeatTimer (initially null).
We model time as an `Int` of milliseconds passed explicitly to every
operation that reads `new Date()`.  The Titanium key-value store is only
ever used at the single key `userIdKey`, so it is modelled as an
`Option String` (`none` = property absent / `getString` returns null).
`setInterval` / `clearInterval` are modelled by an explicit scheduler
state holding the list of outstanding recurring timers together with a
fresh-id counter; `setInterval` returns the new timer's id and records
its period.  Periods are rationals because JavaScript computes
`sessionTimeoutMs/4` in floating point (exact for the values involved).
-/

set_option autoImplicit false

namespace AppSessionModel

/-- The host scheduler: outstanding recurring timers `(id, period-ms)`
    plus a counter supplying fresh ids. -/
structure Sched where
  nextId : Nat
  active : List (Nat × ℚ)
deriving DecidableEq

/-- `setInterval(callback, periodMs)`: registers a new recurring timer and
    returns its id.  (All timers of this module share the same callback,
    the heartbeat body, so the callback itself is not stored.) -/
def setInterval (periodMs : ℚ) (sc : Sched) : Nat × Sched :=
  (sc.nextId, ⟨sc.nextId + 1, sc.active ++ [(sc.nextId, periodMs)]⟩)

/-- `clearInterval(id)`: cancels the timer with the given id. -/
def clearInterval (id : Nat) (sc : Sched) : Sched :=
  ⟨sc.nextId, sc.active.filter (fun e => e.1 != id)⟩

/-- The private state captured by one `AppSession()` closure, together
    with the key-value store entry for `userIdKey` and the scheduler. -/
structure AppState where
  sessionTimeoutMs : Int
  lastAccessTime : Option Int
  heartbeatTimer : Option Nat
  props : Option String
  sched : Sched
deriving DecidableEq

/-- State right after `new AppSession()`:
    `sessionTimeoutMs = 600000`, `lastAccessTime = null`,
    `heartbeatTimer = null`, no stored user id, no timers. -/
def initState : AppState :=
  { sessionTimeoutMs := 600000
    lastAccessTime := none
    heartbeatTimer := none
    props := none
    sched := ⟨0, []⟩ }

/-- `usingTimeout()`: `return sessionTimeoutMs > 0;` -/
def usingTimeout (s : AppState) : Bool :=
  decide (s.sessionTimeoutMs > 0)

/-- `clearUserId()`: `Ti.App.Properties.removeProperty(userIdKey);` -/
def clearUserId (s : AppState) : AppState :=
  { s with props := none }

/-- JavaScript `Math.max` on two (non-NaN) numbers. Stated through the
    executable comparison `Rat.blt`, which is definitionally `<` on ℚ;
    `mathMax_eq_max` below shows it is Mathlib's `max`. -/
def mathMax (a b : ℚ) : ℚ :=
  bif Rat.blt a b then b else a

/-- `startHeartbeat()`: if timeout is enabled, schedule a recurring timer
    with period `Math.max(15000, sessionTimeoutMs/4)` and store its id in
    `heartbeatTimer` (overwriting, without clearing, any previous id).
    JavaScript computes `sessionTimeoutMs/4` in floating point; the exact
    value is the rational `mkRat sessionTimeoutMs 4` (`mkRat_div4` below). -/
def startHeartbeat (s : AppState) : AppState :=
  if usingTimeout s then
    let mostFrequentPeriodMs : ℚ := mkRat 15000 1
    let heartbeatMs : ℚ := mathMax mostFrequentPeriodMs (mkRat s.sessionTimeoutMs 4)
    let p := setInterval heartbeatMs s.sched
    { s with heartbeatTimer := some p.1, sched := p.2 }
  else s

/-- `stopHeartbeat()`: `if (heartbeatTimer !== null) { clearInterval(heartbeatTimer); heartbeatTimer = null; }` -/
def stopHeartbeat (s : AppState) : AppState :=
  match s.heartbeatTimer with
  | none => s
  | some id => { s with sched := clearInterval id s.sched, heartbeatTimer := none }

/-- `isSessionLive()` (public name `isLive`): false when `lastAccessTime`
    is null; true when timeout is disabled; otherwise
    `now - lastAccessTime < sessionTimeoutMs`.  It performs no assignment,
    which the embedding reflects by returning only a `Bool`. -/
def isSessionLive (s : AppState) (now : Int) : Bool :=
  match s.lastAccessTime with
  | none => false
  | some t =>
    if !(usingTimeout s) then true
    else decide (now - t < s.sessionTimeoutMs)

/-- `endSession()`: `stopHeartbeat(); lastAccessTime = null; clearUserId();`
    (the trailing `Ti.API.info` log is observational only). -/
def endSession (s : AppState) : AppState :=
  clearUserId { stopHeartbeat s with lastAccessTime := none }

/-- `touchSession()` (public name `touch`): update `lastAccessTime` to now
    when the session is live, otherwise only log `TOUCH (dead session)`. -/
def touchSession (s : AppState) (now : Int) : AppState :=
  if isSessionLive s now then { s with lastAccessTime := some now } else s

/-- `getUserId()`: touch when live, otherwise `endSession()`; then return
    `Ti.App.Properties.getString(userIdKey, null)` read from the store as
    it stands after that branch.  Returns the value/state pair. -/
def getUserId (s : AppState) (now : Int) : Option String × AppState :=
  let s2 := if isSessionLive s now then touchSession s now else endSession s
  (s2.props, s2)

/-- `setTimeoutMs(timeoutMs)` restricted to integer arguments:
    `if (timeoutMs && (timeoutMs >= 0)) { sessionTimeoutMs = timeoutMs; }`.
    For an integer, JavaScript truthiness is `timeoutMs ≠ 0`. -/
def setTimeoutMs (s : AppState) (timeoutMs : Int) : AppState :=
  if (timeoutMs != 0) && decide (timeoutMs ≥ 0) then
    { s with sessionTimeoutMs := timeoutMs }
  else s

/-- `getTimeoutMs()`: `return sessionTimeoutMs;` -/
def getTimeoutMs (s : AppState) : Int :=
  s.sessionTimeoutMs

/-- `startNewSession(userIdOfSession)` as in src/Resources/AppSession.js
    lines 104-112: teardown only when the session is currently live, then
    `userId = userIdOfSession ? userIdOfSession : 0`, store it, stamp
    `lastAccessTime = new Date()`, and `startHeartbeat()`.  A string
    argument is truthy exactly when non-empty; the falsy fallback stores
    the number 0, which the string-valued store renders as "0". -/
def startNewSession (s : AppState) (userIdOfSession : Option String) (now : Int) : AppState :=
  let s1 := if isSessionLive s now then endSession s else s
  let userId : String :=
    match userIdOfSession with
    | some u => if u != "" then u else "0"
    | none => "0"
  let s2 := { s1 with props := some userId }
  let s3 := { s2 with lastAccessTime := some now }
  startHeartbeat s3

/-- `startNewSession(userIdOfSession)` as in src/unnamed/part_001
    lines 106-112: identical except that `endSession()` is called
    unconditionally before the new session is set up. -/
def startNewSession_v2 (s : AppState) (userIdOfSession : Option String) (now : Int) : AppState :=
  let s1 := endSession s
  let userId : String :=
    match userIdOfSession with
    | some u => if u != "" then u else "0"
    | none => "0"
  let s2 := { s1 with props := some userId }
  let s3 := { s2 with lastAccessTime := some now }
  startHeartbeat s3

/-- One tick of the recurring heartbeat callback installed by
    `startHeartbeat` (lines 51-56): if the timer with this id is still
    outstanding its body runs `if (!isSessionLive()) { endSession(); }`;
    a cancelled timer never fires. -/
def hbTick (s : AppState) (id : Nat) (now : Int) : AppState :=
  if s.sched.active.any (fun e => e.1 == id) then
    if !(isSessionLive s now) then endSession s else s
  else s

/-- Operations a client (or the scheduler) can perform on one instance,
    each carrying the current clock reading where the code calls
    `new Date()`. -/
inductive Op where
  | setT (timeoutMs : Int)
  | start (userIdOfSession : Option String) (now : Int)
  | touch (now : Int)
  | getU (now : Int)
  | endS
  | tick (id : Nat) (now : Int)
deriving DecidableEq

/-- Apply one operation (Resources/AppSession.js variant). -/
def step (s : AppState) : Op → AppState
  | Op.setT t => setTimeoutMs s t
  | Op.start uid now => startNewSession s uid now
  | Op.touch now => touchSession s now
  | Op.getU now => (getUserId s now).2
  | Op.endS => endSession s
  | Op.tick id now => hbTick s id now

/-- Run a sequence of operations from the freshly constructed state;
    a state is reachable when it is `run ops` for some `ops`. -/
def run (ops : List Op) : AppState :=
  ops.foldl step initState

/-- The tracked-timer invariant: the scheduler's outstanding timers are
    exactly the one recorded in `heartbeatTimer` (none outstanding when it
    is null), and every recorded id was issued by the scheduler (is below
    the fresh-id counter). -/
def timerInvB (s : AppState) : Bool :=
  match s.heartbeatTimer with
  | none => s.sched.active == []
  | some id => (s.sched.active.map Prod.fst == [id]) && decide (id < s.sched.nextId)

/-- JavaScript values a caller can pass for the `timeoutMs` parameter of
    `setTimeoutMs`, as far as the guard `timeoutMs && (timeoutMs >= 0)`
    can observe them: `undefined` (missing argument), an integer number,
    `NaN`, or a boolean. -/
inductive JSVal where
  | undef
  | num (n : Int)
  | nan
  | boolean (b : Bool)
deriving DecidableEq

/-- JavaScript truthiness: `undefined`, `0` and `NaN` are falsy;
    a nonzero number and `true` are truthy. -/
def jsTruthy : JSVal → Bool
  | JSVal.undef => false
  | JSVal.num n => n != 0
  | JSVal.nan => false
  | JSVal.boolean b => b

/-- JavaScript `ToNumber` on the modelled values (`none` = NaN):
    `undefined → NaN`, `NaN → NaN`, `true → 1`, `false → 0`. -/
def jsToNumber : JSVal → Option Int
  | JSVal.undef => none
  | JSVal.num n => some n
  | JSVal.nan => none
  | JSVal.boolean b => some (bif b then 1 else 0)

/-- The JavaScript comparison `timeoutMs >= 0`: both operands are
    converted with `ToNumber`; any comparison against NaN is false. -/
def jsGeZero (v : JSVal) : Bool :=
  match jsToNumber v with
  | some n => decide (0 ≤ n)
  | none => false

/-- `setTimeoutMs(timeoutMs)` at the level of JavaScript values
    (lines 92-96): `if (timeoutMs && (timeoutMs >= 0)) { sessionTimeoutMs
    = timeoutMs; }`.  Takes the argument and the current value of the
    `sessionTimeoutMs` variable and returns its new value, which is what
    `getTimeoutMs()` subsequently reads back. -/
def setTimeoutMsJS (timeoutMs cur : JSVal) : JSVal :=
  if jsTruthy timeoutMs && jsGeZero timeoutMs then timeoutMs else cur

/-- Reachable state used in several concrete instantiations: a session
    started at time 0 with the default timeout.  At time 600000 it is
    expired (equality counts as expired) but not yet cleaned up. -/
def exExpired : AppState := run [Op.start (some "u1") 0]

/-- Calling `startNewSession` (Resources variant) on the expired state:
    `isSessionLive()` is false, so no teardown happens and the first
    heartbeat timer is orphaned. -/
def exOrphan : AppState := startNewSession exExpired (some "u2") 600000

/-- Failing input of the `setTimeoutMs(0)` claim: disable the timeout,
    then start a session at time 0. -/
def exC1 : AppState := run [Op.setT 0, Op.start (some "u1") 0]

/-- A hand-written live state: session touched at time 0, default
    timeout, no timer (used for concrete instantiations). -/
def stateLive : AppState :=
  { sessionTimeoutMs := 600000
    lastAccessTime := some 0
    heartbeatTimer := none
    props := some "u1"
    sched := ⟨0, []⟩ }

/-- A hand-written state with the timeout disabled (`sessionTimeoutMs`
    = 0, only constructible directly: `setTimeoutMs(0)` is a no-op). -/
def stateNoTimeout : AppState :=
  { stateLive with sessionTimeoutMs := 0 }

theorem mathMax_eq_max (a b : ℚ) : mathMax a b = max a b := by
  by_cases hab : a < b
  · have hb : Rat.blt a b = true := hab
    simp [mathMax, hb, max_eq_right hab.le]
  · have hb : Rat.blt a b = false := by
      cases h : Rat.blt a b
      · rfl
      · exact absurd (h : a < b) hab
    simp [mathMax, hb, max_eq_left (le_of_not_lt hab)]

theorem mkRat_div4 (n : ℤ) : mkRat n 4 = (n : ℚ) / 4 := by
  rw [Rat.mkRat_eq_div]
  norm_num

theorem mkRat_15000_one : mkRat 15000 1 = (15000 : ℚ) := by
  rw [Rat.mkRat_eq_div]
  norm_num

theorem startNewSession_eq_v2_of_live (s : AppState) (uid : Option String) (now : Int)
    (h : isSessionLive s now = true) :
    startNewSession s uid now = startNewSession_v2 s uid now := by
  simp [startNewSession, startNewSession_v2, h]

theorem endSession_sched_of_inv (s : AppState) (h : timerInvB s = true) :
    (endSession s).sched.active = [] ∧ (endSession s).sched.nextId = s.sched.nextId := by
  cases hh : s.heartbeatTimer with
  | none =>
    unfold timerInvB at h
    rw [hh] at h
    simp only [beq_iff_eq] at h
    simp [endSession, clearUserId, stopHeartbeat, hh, h]
  | some id =>
    unfold timerInvB at h
    rw [hh] at h
    simp only [Bool.and_eq_true, beq_iff_eq, decide_eq_true_eq] at h
    obtain ⟨hmap, _⟩ := h
    have hact : ∃ p : ℚ, s.sched.active = [(id, p)] := by
      cases hA : s.sched.active with
      | nil => rw [hA] at hmap; simp at hmap
      | cons e rest =>
        rw [hA] at hmap
        simp only [List.map_cons, List.cons.injEq] at hmap
        obtain ⟨h1, h2⟩ := hmap
        have : rest = [] := by
          cases rest with
          | nil => rfl
          | cons f rest2 => simp at h2
        exact ⟨e.2, by rw [this]; rw [← h1]⟩
    obtain ⟨p, hp⟩ := hact
    simp [endSession, clearUserId, stopHeartbeat, hh, clearInterval, hp]

/-- C10: a freshly constructed tracker starts inactive with the default
    timeout of 600000 ms: `getTimeoutMs()` returns 600000, no heartbeat
    task exists (no tracked id, no outstanding scheduler entry), no last
    access time is recorded, and `isLive()` returns false at every clock
    reading. -/
theorem initState_spec :
    getTimeoutMs initState = 600000 ∧
    initState.heartbeatTimer = none ∧
    initState.sched.active = [] ∧
    initState.lastAccessTime = none ∧
    ∀ now : Int, isSessionLive initState now = false :=
  ⟨rfl, rfl, rfl, rfl, fun _ => rfl⟩

/-- C3 counterexample: the state reached by starting a session at time 0
    with the default timeout of 600000 ms and letting 600000 ms elapse has
    `lastAccessTime` non-null while `isLive()` already returns false, so
    the claimed equivalence fails in the expired-but-not-cleaned state. -/
theorem lastAccess_isLive_iff_cex :
    exExpired.lastAccessTime = some 0 ∧ isSessionLive exExpired 600000 = false :=
  ⟨by decide, by decide⟩

/-- C3 amended: in every state, `lastAccessTime = null` implies `isLive()`
    returns false; the converse direction fails in the transient
    expired-but-not-cleaned state exhibited by `lastAccess_isLive_iff_cex`. -/
theorem lastAccess_none_imp_not_live (s : AppState) (now : Int)
    (h : s.lastAccessTime = none) : isSessionLive s now = false := by
  simp [isSessionLive, h]

theorem lastAccess_none_imp_not_live_witness :
    isSessionLive initState 0 = false :=
  lastAccess_none_imp_not_live initState 0 rfl

/-- C5 counterexample: the non-numeric argument `true` is truthy and
    satisfies the JavaScript comparison `true >= 0` (ToNumber(true) = 1),
    so `setTimeoutMs(true)` is not a no-op: it overwrites the previously
    configured timeout 600000, and `getTimeoutMs()` then returns `true`. -/
theorem setTimeoutMsJS_cex :
    setTimeoutMsJS (JSVal.boolean true) (JSVal.num 600000) = JSVal.boolean true ∧
    JSVal.boolean true ≠ JSVal.num 600000 :=
  ⟨by decide, by decide⟩

/-- C5 amended: a missing argument, `NaN`, zero and negative numbers are
    silent no-ops of `setTimeoutMs` (the prior timeout is retained and is
    what `getTimeoutMs()` reads back), and positive numbers are applied;
    however a truthy non-numeric value whose numeric coercion is
    non-negative (such as `true`) is applied rather than ignored. -/
theorem setTimeoutMsJS_amended (cur : JSVal) :
    setTimeoutMsJS JSVal.undef cur = cur ∧
    setTimeoutMsJS JSVal.nan cur = cur ∧
    setTimeoutMsJS (JSVal.num 0) cur = cur ∧
    (∀ n : Int, n < 0 → setTimeoutMsJS (JSVal.num n) cur = cur) ∧
    (∀ n : Int, 0 < n → setTimeoutMsJS (JSVal.num n) cur = JSVal.num n) := by
  refine ⟨rfl, rfl, rfl, ?_, ?_⟩
  · intro n hn
    have h1 : jsGeZero (JSVal.num n) = false := by
      simp [jsGeZero, jsToNumber]
      omega
    simp [setTimeoutMsJS, h1]
  · intro n hn
    have h1 : jsTruthy (JSVal.num n) = true := by
      simp [jsTruthy]
      omega
    have h2 : jsGeZero (JSVal.num n) = true := by
      simp [jsGeZero, jsToNumber]
      omega
    simp [setTimeoutMsJS, h1, h2]

theorem setTimeoutMsJS_amended_witness :
    setTimeoutMsJS (JSVal.num (-5)) (JSVal.num 600000) = JSVal.num 600000 ∧
    setTimeoutMsJS (JSVal.num 30000) (JSVal.num 600000) = JSVal.num 30000 :=
  ⟨(setTimeoutMsJS_amended (JSVal.num 600000)).2.2.2.1 (-5) (by decide),
   (setTimeoutMsJS_amended (JSVal.num 600000)).2.2.2.2 30000 (by decide)⟩

/-- C4: `isLive()` returns false when `lastAccessTime` is null; returns
    true unconditionally when a session exists and `sessionTimeoutMs` is
    0; and for a positive timeout returns true iff
    `now - lastAccessTime < sessionTimeoutMs` (strict, so equality counts
    as expired).  It is a pure function of the state and the clock. -/
theorem isSessionLive_spec (s : AppState) (now : Int) :
    (s.lastAccessTime = none → isSessionLive s now = false) ∧
    (∀ t : Int, s.lastAccessTime = some t → s.sessionTimeoutMs = 0 →
      isSessionLive s now = true) ∧
    (∀ t : Int, s.lastAccessTime = some t → 0 < s.sessionTimeoutMs →
      (isSessionLive s now = true ↔ now - t < s.sessionTimeoutMs)) := by
  refine ⟨?_, ?_, ?_⟩
  · intro h
    simp [isSessionLive, h]
  · intro t h h0
    simp [isSessionLive, h, usingTimeout, h0]
  · intro t h hpos
    simp [isSessionLive, h, usingTimeout, hpos]

theorem isSessionLive_spec_witness :
    isSessionLive initState 0 = false ∧
    isSessionLive stateNoTimeout 1000000000 = true ∧
    isSessionLive stateLive 5 = true :=
  ⟨(isSessionLive_spec initState 0).1 rfl,
   (isSessionLive_spec stateNoTimeout 1000000000).2.1 0 rfl rfl,
   ((isSessionLive_spec stateLive 5).2.2 0 rfl (by decide)).mpr (by decide)⟩

/-- C7: `touch()` on a live session only updates `lastAccessTime` to the
    current time; on a non-live session it leaves the whole state exactly
    unchanged — in particular it does not revive the session (`isLive()`
    remains false at every later clock reading) and does not clear a stale
    non-null `lastAccessTime`. -/
theorem touchSession_spec (s : AppState) (now : Int) :
    (isSessionLive s now = true →
      touchSession s now = { s with lastAccessTime := some now }) ∧
    (isSessionLive s now = false →
      touchSession s now = s ∧
      ∀ now2 : Int, now ≤ now2 → isSessionLive (touchSession s now) now2 = false) := by
  constructor
  · intro h
    simp [touchSession, h]
  · intro h
    have hid : touchSession s now = s := by simp [touchSession, h]
    refine ⟨hid, ?_⟩
    intro now2 h2
    rw [hid]
    cases hl : s.lastAccessTime with
    | none => simp [isSessionLive, hl]
    | some t =>
      by_cases hu : usingTimeout s = true
      · have hnot : ¬ (now - t < s.sessionTimeoutMs) := by
          intro hc
          have : isSessionLive s now = true := by
            simp [isSessionLive, hl, hu, hc]
          rw [this] at h
          simp at h
        have hnot2 : ¬ (now2 - t < s.sessionTimeoutMs) := by omega
        simp [isSessionLive, hl, hu, hnot2]
      · have : isSessionLive s now = true := by
          simp [isSessionLive, hl, hu]
        rw [this] at h
        simp at h

theorem touchSession_spec_witness :
    touchSession stateLive 5 = { stateLive with lastAccessTime := some 5 } ∧
    touchSession initState 0 = initState ∧
    isSessionLive (touchSession exExpired 600000) 600001 = false :=
  ⟨(touchSession_spec stateLive 5).1 (by decide),
   ((touchSession_spec initState 0).2 rfl).1,
   ((touchSession_spec exExpired 600000).2 (by decide)).2 600001 (by decide)⟩

/-- C8: `endSession()` is an idempotent teardown: it cancels the tracked
    heartbeat timer in the scheduler when one is present and clears the
    handle, clears `lastAccessTime` and the stored payload; a second call
    produces the identical inactive state, and `isLive()` is false after
    each call. -/
theorem endSession_spec (s : AppState) (now : Int) :
    endSession (endSession s) = endSession s ∧
    (endSession s).heartbeatTimer = none ∧
    (endSession s).lastAccessTime = none ∧
    (endSession s).props = none ∧
    isSessionLive (endSession s) now = false ∧
    (∀ id : Nat, s.heartbeatTimer = some id →
      (endSession s).sched.active.all (fun e => e.1 != id) = true) := by
  have hT : (endSession s).heartbeatTimer = none := by
    cases hh : s.heartbeatTimer <;> simp [endSession, clearUserId, stopHeartbeat, hh]
  refine ⟨?_, hT, rfl, rfl, rfl, ?_⟩
  · show clearUserId { stopHeartbeat (endSession s) with lastAccessTime := none } = endSession s
    rw [show stopHeartbeat (endSession s) = endSession s from by simp [stopHeartbeat, hT]]
    rfl
  · intro id hh
    simp only [endSession, clearUserId, stopHeartbeat, hh, clearInterval, List.all_eq_true]
    intro e he
    exact (List.mem_filter.mp he).2

theorem endSession_spec_witness :
    (endSession exExpired).sched.active.all (fun e => e.1 != 0) = true :=
  (endSession_spec exExpired 0).2.2.2.2.2 0 (by decide)

/-- C6: `getUserId()` on a live session performs a touch (sets
    `lastAccessTime` to now) and returns the stored payload; on a non-live
    session it performs the full `endSession` teardown and returns null,
    the stored payload having been cleared by the teardown. -/
theorem getUserId_spec (s : AppState) (now : Int) :
    (isSessionLive s now = true →
      getUserId s now = (s.props, { s with lastAccessTime := some now })) ∧
    (isSessionLive s now = false →
      getUserId s now = (none, endSession s) ∧ (endSession s).props = none) := by
  constructor
  · intro h
    simp [getUserId, touchSession, h]
  · intro h
    exact ⟨by simp [getUserId, h, endSession, clearUserId], rfl⟩

theorem getUserId_spec_witness :
    getUserId stateLive 5 = (some "u1", { stateLive with lastAccessTime := some 5 }) ∧
    getUserId exExpired 600000 = (none, endSession exExpired) :=
  ⟨(getUserId_spec stateLive 5).1 (by decide),
   ((getUserId_spec exExpired 600000).2 (by decide)).1⟩

theorem endSession_timeout_eq (s : AppState) :
    (endSession s).sessionTimeoutMs = s.sessionTimeoutMs := by
  cases hh : s.heartbeatTimer <;> simp [endSession, clearUserId, stopHeartbeat, hh]

/-- C1 (code bug): `setTimeoutMs(0)` is silently ignored — `0` is falsy,
    so the guard `timeoutMs && (timeoutMs >= 0)` fails — contradicting the
    code's own comments ("A value of 0 means never timeout") and the
    never-expires handling inside `isSessionLive`.  After
    `setTimeoutMs(0); startNewSession('u1')` at time 0, the timeout is
    still 600000, a heartbeat task IS created, and `isLive()` is false
    once 600000 ms have elapsed, refuting "stays true indefinitely with no
    heartbeat task". -/
theorem setTimeoutMs_zero_bug :
    setTimeoutMs initState 0 = initState ∧
    getTimeoutMs exC1 = 600000 ∧
    exC1.heartbeatTimer = some 0 ∧
    exC1.sched.active.length = 1 ∧
    isSessionLive exC1 1000000000 = false :=
  ⟨rfl, by decide, by decide, by decide, by decide⟩

/-- C2 counterexample: a prior session exists (`lastAccessTime = some 0`)
    but has expired at time 600000, so the Resources-variant
    `startNewSession` skips the teardown: the first heartbeat timer (id 0)
    is never cancelled and two heartbeat tasks are outstanding afterwards. -/
theorem startNewSession_orphan_cex :
    exExpired.lastAccessTime = some 0 ∧
    exOrphan.sched.active.map Prod.fst = [0, 1] ∧
    exOrphan.heartbeatTimer = some 1 ∧
    exOrphan.sched.active.length = 2 :=
  ⟨by decide, by decide, by decide, by decide⟩

/-- C2 amended: the part_001 variant of `startNewSession` performs the
    full teardown unconditionally, so from any state whose outstanding
    timers are exactly the tracked one, afterwards at most one heartbeat
    task is outstanding and the previous timer has been cancelled; the
    Resources variant guarantees the same only when the prior session is
    still live (from an expired-but-uncleaned state it orphans the old
    timer, see the counterexample). -/
theorem startNewSession_teardown_amended (s : AppState) (uid : Option String) (now : Int)
    (hInv : timerInvB s = true) :
    ((startNewSession_v2 s uid now).sched.active.length ≤ 1 ∧
      (∀ id : Nat, s.heartbeatTimer = some id →
        (startNewSession_v2 s uid now).sched.active.all (fun e => e.1 != id) = true)) ∧
    (isSessionLive s now = true →
      (startNewSession s uid now).sched.active.length ≤ 1 ∧
      (∀ id : Nat, s.heartbeatTimer = some id →
        (startNewSession s uid now).sched.active.all (fun e => e.1 != id) = true)) := by
  obtain ⟨hAct, hNext⟩ := endSession_sched_of_inv s hInv
  have hTo := endSession_timeout_eq s
  have hIdLt : ∀ id : Nat, s.heartbeatTimer = some id → id < s.sched.nextId := by
    intro id hh
    unfold timerInvB at hInv
    rw [hh] at hInv
    simp only [Bool.and_eq_true, beq_iff_eq, decide_eq_true_eq] at hInv
    exact hInv.2
  have hMain : (startNewSession_v2 s uid now).sched.active.length ≤ 1 ∧
      (∀ id : Nat, s.heartbeatTimer = some id →
        (startNewSession_v2 s uid now).sched.active.all (fun e => e.1 != id) = true) := by
    by_cases hpos : (0:Int) < s.sessionTimeoutMs
    · have hActive : (startNewSession_v2 s uid now).sched.active =
          [((endSession s).sched.nextId,
            mathMax (mkRat 15000 1) (mkRat s.sessionTimeoutMs 4))] := by
        simp [startNewSession_v2, startHeartbeat, setInterval, usingTimeout, hTo, hpos, hAct]
      constructor
      · rw [hActive]
        simp
      · intro id hh
        rw [hActive, hNext]
        have : id < s.sched.nextId := hIdLt id hh
        simp only [List.all_cons, List.all_nil, Bool.and_true, bne_iff_ne, ne_eq]
        omega
    · have hActive : (startNewSession_v2 s uid now).sched.active = [] := by
        simp [startNewSession_v2, startHeartbeat, setInterval, usingTimeout, hTo, hpos, hAct]
      rw [hActive]
      simp
  refine ⟨hMain, ?_⟩
  intro hlive
  rw [startNewSession_eq_v2_of_live s uid now hlive]
  exact hMain

theorem startNewSession_teardown_amended_witness :
    (startNewSession_v2 exExpired (some "u2") 600000).sched.active.length ≤ 1 ∧
    (startNewSession_v2 exExpired (some "u2") 600000).sched.active.all
      (fun e => e.1 != 0) = true :=
  ⟨((startNewSession_teardown_amended exExpired (some "u2") 600000 (by decide)).1).1,
   ((startNewSession_teardown_amended exExpired (some "u2") 600000 (by decide)).1).2 0 (by decide)⟩

/-- C9: starting a session with a positive timeout schedules a recurring
    heartbeat task with period `max(15000, timeoutMs/4)` milliseconds; a
    tick of an outstanding heartbeat timer invokes `endSession()` exactly
    when `isLive()` is false (and leaves the state alone otherwise), so
    immediately after any heartbeat tick the state is never
    "expired but not cleaned up" (`lastAccessTime` non-null with
    `isLive()` false). -/
theorem heartbeat_spec (s : AppState) (uid : Option String) (now : Int)
    (hpos : (0:Int) < s.sessionTimeoutMs) :
    (∃ id : Nat, (startNewSession s uid now).heartbeatTimer = some id ∧
      (id, max (15000:ℚ) ((s.sessionTimeoutMs : ℚ) / 4)) ∈
        (startNewSession s uid now).sched.active) ∧
    (∀ (s2 : AppState) (id2 : Nat) (n2 : Int),
      s2.sched.active.any (fun e => e.1 == id2) = true →
      hbTick s2 id2 n2 = if isSessionLive s2 n2 then s2 else endSession s2) ∧
    (∀ (s2 : AppState) (id2 : Nat) (n2 : Int),
      s2.sched.active.any (fun e => e.1 == id2) = true →
      (hbTick s2 id2 n2).lastAccessTime ≠ none →
      isSessionLive (hbTick s2 id2 n2) n2 = true) := by
  have hper : mathMax (mkRat 15000 1) (mkRat s.sessionTimeoutMs 4) =
      max (15000:ℚ) ((s.sessionTimeoutMs : ℚ) / 4) := by
    rw [mathMax_eq_max, mkRat_div4, mkRat_15000_one]
  refine ⟨?_, ?_, ?_⟩
  · by_cases hl : isSessionLive s now = true
    · have hTo := endSession_timeout_eq s
      refine ⟨(endSession s).sched.nextId, ?_, ?_⟩
      · simp [startNewSession, startHeartbeat, setInterval, usingTimeout, hl, hTo, hpos]
      · rw [← hper]
        simp [startNewSession, startHeartbeat, setInterval, usingTimeout, hl, hTo, hpos]
    · rw [Bool.not_eq_true] at hl
      refine ⟨s.sched.nextId, ?_, ?_⟩
      · simp [startNewSession, startHeartbeat, setInterval, usingTimeout, hl, hpos]
      · rw [← hper]
        simp [startNewSession, startHeartbeat, setInterval, usingTimeout, hl, hpos]
  · intro s2 id2 n2 hany
    cases hl : isSessionLive s2 n2 <;> simp [hbTick, hany, hl]
  · intro s2 id2 n2 hany hne
    cases hl : isSessionLive s2 n2 with
    | true =>
      have : hbTick s2 id2 n2 = s2 := by simp [hbTick, hany, hl]
      rw [this]
      exact hl
    | false =>
      have : hbTick s2 id2 n2 = endSession s2 := by simp [hbTick, hany, hl]
      rw [this] at hne
      exact absurd rfl hne

theorem heartbeat_spec_witness :
    (∃ id : Nat, (startNewSession initState (some "u1") 0).heartbeatTimer = some id ∧
      (id, max (15000:ℚ) ((initState.sessionTimeoutMs : ℚ) / 4)) ∈
        (startNewSession initState (some "u1") 0).sched.active) ∧
    hbTick exExpired 0 600000 =
      (if isSessionLive exExpired 600000 then exExpired else endSession exExpired) ∧
    isSessionLive (hbTick exExpired 0 5) 5 = true :=
  ⟨(heartbeat_spec initState (some "u1") 0 (by decide)).1,
   (heartbeat_spec initState (some "u1") 0 (by decide)).2.1 exExpired 0 600000 (by decide),
   (heartbeat_spec initState (some "u1") 0 (by decide)).2.2 exExpired 0 5 (by decide) (by decide)⟩

end AppSessionModel
